import Mathlib

set_option linter.unusedVariables false

/-!
Shallow embedding of the track-tree-audio worker service: the tenacity-based
storage retry engine (src/aws_services/constants.py, src/aws_services/s3.py),
the webhook sender (src/webhook.py), the signing / allowlisting module
(src/security.py) and the Demucs job pipeline (src/demucs_runner.py,
src/models.py), together with theorems settling the specification claims.
-/

namespace TrackTree

/-! ## Retry engine: src/aws_services/constants.py and src/aws_services/s3.py -/

/-- Constant S3_DEFAULT_MAX_RETRIES = 3 from src/aws_services/constants.py. -/
def S3_DEFAULT_MAX_RETRIES : Nat := 3

/-- Constant S3_DEFAULT_MIN_DELAY = 1.0 from src/aws_services/constants.py. -/
def S3_DEFAULT_MIN_DELAY : Rat := 1

/-- Constant S3_DEFAULT_MAX_DELAY = 60.0 from src/aws_services/constants.py. -/
def S3_DEFAULT_MAX_DELAY : Rat := 60

/-- Constant S3_DEFAULT_EXPONENTIAL_BASE = 2.0 from src/aws_services/constants.py. -/
def S3_DEFAULT_EXPONENTIAL_BASE : Rat := 2

/-- Constant S3_DEFAULT_JITTER = True from src/aws_services/constants.py. -/
def S3_DEFAULT_JITTER : Bool := true

/-- The set S3_RETRYABLE_ERROR_CODES from src/aws_services/constants.py
(a Python set of strings; only membership is used). -/
def S3_RETRYABLE_ERROR_CODES : List String :=
  [ "ThrottlingException", "Throttling", "RequestTimeout",
    "RequestTimeoutException", "ServiceUnavailable", "InternalError",
    "InternalServerError", "SlowDown", "TooManyRequests",
    "RequestLimitExceeded", "BandwidthLimitExceeded", "RequestThrottled" ]

/-- Runtime type of an exception raised by a wrapped storage call.  The
four named constructors are exactly the types in the module-level tuple
RETRYABLE_EXCEPTIONS = (ClientError, BotoCoreError, ConnectionError,
TimeoutError) of src/aws_services/s3.py; otherExc stands for any other
Python exception type. -/
inductive ExcType where
  | clientError
  | botoCoreError
  | connectionError
  | timeoutError
  | otherExc
  deriving DecidableEq, Repr

/-- A raised Python exception as the retry engine observes it: its runtime
type and the embedded service error code.  The code models
getattr(exception, "response", dict()).get("Error", dict()).get("Code", "");
exceptions that carry no response dictionary have code "". -/
structure PyException where
  excType : ExcType
  errorCode : String
  deriving DecidableEq, Repr

/-- Membership test behind tenacity retry_if_exception_type(RETRYABLE_EXCEPTIONS)
in the decorators of src/aws_services/s3.py: true exactly for instances of
ClientError, BotoCoreError, ConnectionError or TimeoutError. -/
def isRetryableExceptionType : ExcType → Bool
  | ExcType.clientError => true
  | ExcType.botoCoreError => true
  | ExcType.connectionError => true
  | ExcType.timeoutError => true
  | ExcType.otherExc => false

/-- Body of _should_retry_s3_error in src/aws_services/s3.py, as it would
behave when handed a genuine retry_state: for a ClientError or BotoCoreError
it tests the embedded error code against S3_RETRYABLE_ERROR_CODES, otherwise
it returns False.  Note that in the decorators this function is wrapped in
tenacity retry_if_exception, which hands it the raw exception, not a
retry_state; see s3RetryPredicate below. -/
def should_retry_s3_error (e : PyException) : Bool :=
  match e.excType with
  | ExcType.clientError => S3_RETRYABLE_ERROR_CODES.contains e.errorCode
  | ExcType.botoCoreError => S3_RETRYABLE_ERROR_CODES.contains e.errorCode
  | _ => false

/-- The combined retry condition of every decorator in src/aws_services/s3.py:
retry_if_exception_type(RETRYABLE_EXCEPTIONS) | retry_if_exception(_should_retry_s3_error).
tenacity evaluates the disjunction left to right and short-circuits, so for an
exception of one of the four retryable types the answer is True regardless of
its error code, and _should_retry_s3_error is never consulted.  For any other
exception type the second arm runs: retry_if_exception passes the raw
exception object to _should_retry_s3_error, whose body dereferences
retry_state.outcome on it, raising AttributeError; that crash is modelled as
Except.error. -/
def s3RetryPredicate (e : PyException) : Except Unit Bool :=
  match isRetryableExceptionType e.excType with
  | true => Except.ok true
  | false => Except.error ()

/-- Outcome of a tenacity-decorated call: a returned value, a re-raised
wrapped-function exception (reraise=True is set on every decorator, so the
original exception object propagates unchanged), or a crash of the retry
predicate itself. -/
inductive TenRes (α : Type) where
  | value (a : α)
  | excRaised (e : PyException)
  | attrError
  deriving DecidableEq, Repr

/-- Attempt loop of tenacity with stop_after_attempt and reraise=True.  The
wrapped call is an attempt-indexed oracle f (attempt numbers start at 0);
fuel is the number of further attempts stop_after_attempt still allows after
the current one.  Returns the outcome together with the number of times the
wrapped operation was invoked. -/
def tenacityLoop (pred : PyException → Except Unit Bool)
    (f : Nat → Except PyException α) : Nat → Nat → TenRes α × Nat
  | 0, attempt =>
    match f attempt with
    | Except.ok a => (TenRes.value a, attempt + 1)
    | Except.error e =>
      match pred e with
      | Except.error _ => (TenRes.attrError, attempt + 1)
      | Except.ok false => (TenRes.excRaised e, attempt + 1)
      | Except.ok true => (TenRes.excRaised e, attempt + 1)
  | fuel + 1, attempt =>
    match f attempt with
    | Except.ok a => (TenRes.value a, attempt + 1)
    | Except.error e =>
      match pred e with
      | Except.error _ => (TenRes.attrError, attempt + 1)
      | Except.ok false => (TenRes.excRaised e, attempt + 1)
      | Except.ok true => tenacityLoop pred f fuel (attempt + 1)

/-- A tenacity-decorated operation with retry condition pred and
stop_after_attempt maxAttempts, applied to the oracle f. -/
def tenacityRun (pred : PyException → Except Unit Bool) (maxAttempts : Nat)
    (f : Nat → Except PyException α) : TenRes α × Nat :=
  tenacityLoop pred f (maxAttempts - 1) 0

/-- The retry configuration stored by S3Service.__init__ in
src/aws_services/s3.py (self.max_retries, self.min_delay, self.max_delay,
self.exponential_base, self.jitter).  Delay values, floats in the source,
are embedded as rationals: only equality of configurations is at stake. -/
structure S3Service where
  max_retries : Nat
  min_delay : Rat
  max_delay : Rat
  exponential_base : Rat
  jitter : Bool
  deriving DecidableEq, Repr

/-- An S3Service built with the default arguments of __init__
(the module constants). -/
def s3ServiceDefault : S3Service :=
  { max_retries := S3_DEFAULT_MAX_RETRIES, min_delay := S3_DEFAULT_MIN_DELAY,
    max_delay := S3_DEFAULT_MAX_DELAY,
    exponential_base := S3_DEFAULT_EXPONENTIAL_BASE, jitter := S3_DEFAULT_JITTER }

/-- The retry decorator attached to every storage operation of S3Service
(test_connection, upload_file, download_file, file_exists, ...).  The
decorator expression in the source names only the module-level constants
S3_DEFAULT_MAX_RETRIES, S3_DEFAULT_MIN_DELAY, S3_DEFAULT_MAX_DELAY and
S3_DEFAULT_JITTER, and it is evaluated once, at class-definition time; the
configuration stored on the instance by __init__ is never read by it, which
the embedding reproduces by ignoring s. -/
def s3_retry_decorator (s : S3Service) (f : Nat → Except PyException α) :
    TenRes α × Nat :=
  tenacityRun s3RetryPredicate S3_DEFAULT_MAX_RETRIES f

/-- S3Service.upload_file of src/aws_services/s3.py: the boto3 network body
(bucket resolution, client.upload_file, URL construction) is abstracted as
the attempt-indexed oracle f; the subject here is the retry decorator that
wraps it. -/
def S3Service.upload_file (s : S3Service) (f : Nat → Except PyException String) :
    TenRes String × Nat :=
  s3_retry_decorator s f

/-- Wait strategy selected by a decorator of src/aws_services/s3.py:
wait_exponential(multiplier=S3_DEFAULT_MIN_DELAY, max=S3_DEFAULT_MAX_DELAY)
if not S3_DEFAULT_JITTER else wait_random_exponential(with the same
arguments). -/
inductive WaitPolicy where
  | wait_exponential (multiplier max : Rat)
  | wait_random_exponential (multiplier max : Rat)
  deriving DecidableEq, Repr

/-- The wait strategy of the decorators of S3Service: chosen from the module
constants at class-definition time, independent of the instance s. -/
def s3WaitPolicy (s : S3Service) : WaitPolicy :=
  cond S3_DEFAULT_JITTER
    (WaitPolicy.wait_random_exponential S3_DEFAULT_MIN_DELAY S3_DEFAULT_MAX_DELAY)
    (WaitPolicy.wait_exponential S3_DEFAULT_MIN_DELAY S3_DEFAULT_MAX_DELAY)

/-- The stop strategy of the decorators of S3Service:
stop_after_attempt(S3_DEFAULT_MAX_RETRIES), independent of the instance s. -/
def s3StopMaxAttempts (s : S3Service) : Nat :=
  S3_DEFAULT_MAX_RETRIES

/-- A ClientError whose embedded error code is the not-found code NoSuchKey
(an S3 404 condition), which is outside S3_RETRYABLE_ERROR_CODES. -/
def notFoundExc : PyException :=
  { excType := ExcType.clientError, errorCode := "NoSuchKey" }

/-- A ClientError carrying the throttling code SlowDown, which is a member
of S3_RETRYABLE_ERROR_CODES. -/
def slowDownExc : PyException :=
  { excType := ExcType.clientError, errorCode := "SlowDown" }

/-- C1, code bug: a storage call that keeps raising a ClientError whose
embedded code NoSuchKey (a not-found / 404 condition) is outside the fixed
retryable-code set is nevertheless invoked 3 times by the decorated
upload_file, not once, because the decorator disjoins
retry_if_exception_type(ClientError, ...) with the code check, so every
ClientError is retried and _should_retry_s3_error is dead code.  The claim
(and the spec) say such an error propagates after exactly 1 invocation. -/
theorem c1_not_found_clienterror_is_retried :
    S3Service.upload_file s3ServiceDefault (fun _ => Except.error notFoundExc)
      = (TenRes.excRaised notFoundExc, 3)
    ∧ S3_RETRYABLE_ERROR_CODES.contains "NoSuchKey" = false :=
  ⟨rfl, by decide⟩

/-- C5: when every invocation of the wrapped operation raises an error that
the retry condition classifies as retryable, the decorated upload_file
invokes the operation exactly S3_DEFAULT_MAX_RETRIES = 3 times and re-raises
the exception object of the last attempt unchanged (reraise=True), with no
wrapping. -/
theorem c5_retry_exhaustion_reraises_last (s : S3Service)
    (f : Nat → Except PyException String) (e : Nat → PyException)
    (hf : ∀ n, f n = Except.error (e n))
    (hr : ∀ n, s3RetryPredicate (e n) = Except.ok true) :
    S3Service.upload_file s f = (TenRes.excRaised (e 2), 3) := by
  simp only [S3Service.upload_file, s3_retry_decorator, tenacityRun,
    S3_DEFAULT_MAX_RETRIES]
  simp [tenacityLoop, hf, hr]

/-- Witness for c5_retry_exhaustion_reraises_last: a wrapped operation that
raises a throttling-coded ClientError on all three attempts. -/
theorem c5_witness :
    S3Service.upload_file s3ServiceDefault (fun _ => Except.error slowDownExc)
      = (TenRes.excRaised slowDownExc, 3) :=
  c5_retry_exhaustion_reraises_last s3ServiceDefault _ (fun _ => slowDownExc)
    (fun _ => rfl) (fun _ => rfl)

/-- C9: the retry parameters stored by the S3Service constructor have no
effect: any two instances, however configured, give identical results and
invocation counts on every wrapped operation, and share the same wait and
stop strategies, since the decorators were built from the module-level
default constants at class-definition time. -/
theorem c9_constructor_config_has_no_effect (s1 s2 : S3Service) :
    (∀ f : Nat → Except PyException String,
        S3Service.upload_file s1 f = S3Service.upload_file s2 f)
    ∧ s3WaitPolicy s1 = s3WaitPolicy s2
    ∧ s3StopMaxAttempts s1 = s3StopMaxAttempts s2 :=
  ⟨fun _ => rfl, rfl, rfl⟩

/-! ## Webhook sender: src/webhook.py -/

/-- Outcome of one HTTP POST performed inside send_webhook of src/webhook.py:
either requests.post ran and raise_for_status passed, or one of the three
exception classes caught there was raised (requests Timeout, a requests
RequestException, or any other exception). -/
inductive PostOutcome where
  | success
  | timeout
  | requestError (msg : String)
  | unexpectedError (msg : String)
  deriving DecidableEq, Repr

/-- Function send_webhook of src/webhook.py.  Its whole body sits inside a
try block whose except clauses cover every exception (Timeout,
RequestException, and a final bare Exception) and return False, so the
function is total: it returns True on a delivered POST and False otherwise,
and never raises. -/
def send_webhook (outcome : PostOutcome) : Bool :=
  match outcome with
  | PostOutcome.success => true
  | PostOutcome.timeout => false
  | PostOutcome.requestError _ => false
  | PostOutcome.unexpectedError _ => false

/-- Loop body of send_webhook_with_retry of src/webhook.py: for attempt in
range(max_retries + 1): when attempt > 0 first sleep 2 ** attempt seconds,
then call send_webhook; return True on success, and return False when the
final attempt (attempt == max_retries) has failed.  post gives the outcome
of each attempt by index; fuel = max_retries - attempt counts the attempts
still allowed after the current one.  Returns (result, list of performed
sleep durations in seconds, number of attempts performed). -/
def webhookLoop (post : Nat → PostOutcome) : Nat → Nat → Bool × List Nat × Nat
  | 0, attempt =>
    if send_webhook (post attempt) then
      (true, (if 0 < attempt then [2 ^ attempt] else []), 1)
    else
      (false, (if 0 < attempt then [2 ^ attempt] else []), 1)
  | fuel + 1, attempt =>
    if send_webhook (post attempt) then
      (true, (if 0 < attempt then [2 ^ attempt] else []), 1)
    else
      let r := webhookLoop post fuel (attempt + 1)
      (r.1, (if 0 < attempt then [2 ^ attempt] else []) ++ r.2.1, r.2.2 + 1)

/-- Function send_webhook_with_retry of src/webhook.py (default
max_retries = 3). -/
def send_webhook_with_retry (post : Nat → PostOutcome) (max_retries : Nat) :
    Bool × List Nat × Nat :=
  webhookLoop post max_retries 0

/-- The sleep durations a run of n attempts starting at index a performs:
2 ^ i seconds before each attempt of index i > 0, in order and with no
jitter. -/
def expectedSleeps (a n : Nat) : List Nat :=
  ((List.range' a n).filter (fun i => decide (0 < i))).map (fun i => 2 ^ i)

lemma expectedSleeps_one (a : Nat) :
    expectedSleeps a 1 = if 0 < a then [2 ^ a] else [] := by
  by_cases h : 0 < a <;> simp [expectedSleeps, h]

lemma expectedSleeps_succ (a n : Nat) :
    expectedSleeps a (n + 1)
      = (if 0 < a then [2 ^ a] else []) ++ expectedSleeps (a + 1) n := by
  by_cases h : 0 < a <;> simp [expectedSleeps, List.range'_succ, h]

lemma webhookLoop_spec (post : Nat → PostOutcome) :
    ∀ fuel attempt,
      ((webhookLoop post fuel attempt).1 = true ↔
        ∃ i, i ≤ fuel ∧ send_webhook (post (attempt + i)) = true)
      ∧ (webhookLoop post fuel attempt).2.1
          = expectedSleeps attempt (webhookLoop post fuel attempt).2.2
      ∧ 1 ≤ (webhookLoop post fuel attempt).2.2
      ∧ (webhookLoop post fuel attempt).2.2 ≤ fuel + 1
      ∧ ((webhookLoop post fuel attempt).1 = true →
          send_webhook (post (attempt + ((webhookLoop post fuel attempt).2.2 - 1))) = true
          ∧ ∀ j, j < (webhookLoop post fuel attempt).2.2 - 1 →
              send_webhook (post (attempt + j)) = false)
      ∧ ((webhookLoop post fuel attempt).1 = false →
          (webhookLoop post fuel attempt).2.2 = fuel + 1
          ∧ ∀ i, i ≤ fuel → send_webhook (post (attempt + i)) = false) := by
  intro fuel
  induction fuel with
  | zero =>
    intro attempt
    by_cases h : send_webhook (post attempt) = true
    · refine ⟨?_, ?_, ?_, ?_, ?_, ?_⟩ <;>
        simp [webhookLoop, h, expectedSleeps_one]
    · simp only [Bool.not_eq_true] at h
      refine ⟨?_, ?_, ?_, ?_, ?_, ?_⟩ <;>
        simp [webhookLoop, h, expectedSleeps_one]
  | succ fuel ih =>
    intro attempt
    by_cases h : send_webhook (post attempt) = true
    · refine ⟨?_, ?_, ?_, ?_, ?_, ?_⟩ <;>
        simp [webhookLoop, h, expectedSleeps_one]
      exact ⟨0, by omega, by simpa using h⟩
    · simp only [Bool.not_eq_true] at h
      obtain ⟨ih1, ih2, ih3, ih4, ih5, ih6⟩ := ih (attempt + 1)
      rcases hr : webhookLoop post fuel (attempt + 1) with ⟨b, sl, n⟩
      rw [hr] at ih1 ih2 ih3 ih4 ih5 ih6
      simp only at ih1 ih2 ih3 ih4 ih5 ih6
      have hrun : webhookLoop post (fuel + 1) attempt
          = (b, (if 0 < attempt then [2 ^ attempt] else []) ++ sl, n + 1) := by
        simp [webhookLoop, h, hr]
      refine ⟨?_, ?_, ?_, ?_, ?_, ?_⟩ <;> rw [hrun] <;> simp only
      · constructor
        · intro hb
          obtain ⟨i, hi, hs⟩ := ih1.mp hb
          exact ⟨i + 1, by omega, by
            have : attempt + (i + 1) = attempt + 1 + i := by omega
            rw [this]; exact hs⟩
        · rintro ⟨i, hi, hs⟩
          match i, hs with
          | 0, hs => exact absurd (by simpa using hs) (by simp [h])
          | i + 1, hs =>
            exact ih1.mpr ⟨i, by omega, by
              have : attempt + 1 + i = attempt + (i + 1) := by omega
              rw [this]; exact hs⟩
      · rw [ih2, expectedSleeps_succ]
      · omega
      · omega
      · intro hb
        obtain ⟨hs, hprev⟩ := ih5 hb
        constructor
        · have : attempt + (n + 1 - 1) = attempt + 1 + (n - 1) := by omega
          rw [this]; exact hs
        · intro j hj
          match j with
          | 0 => simpa using h
          | j + 1 =>
            have : attempt + (j + 1) = attempt + 1 + j := by omega
            rw [this]; exact hprev j (by omega)
      · intro hb
        obtain ⟨hn, hall⟩ := ih6 hb
        refine ⟨by omega, ?_⟩
        intro i hi
        match i with
        | 0 => simpa using h
        | i + 1 =>
          have : attempt + (i + 1) = attempt + 1 + i := by omega
          rw [this]; exact hall i (by omega)

/-- C7: send_webhook_with_retry never raises (send_webhook is total, every
exception being caught and turned into False, and the wrapper only loops
over it); it returns true exactly when some of the max_retries + 1 attempts
succeeds, and then stops at the first success; before each retry of index
i > 0 it sleeps exactly 2 ^ i seconds with no jitter; and when every attempt
has failed it has performed all max_retries + 1 attempts and returns false
to the caller. -/
theorem c7_send_webhook_with_retry_spec (post : Nat → PostOutcome) (m : Nat) :
    ((send_webhook_with_retry post m).1 = true ↔
      ∃ i, i ≤ m ∧ send_webhook (post i) = true)
    ∧ (send_webhook_with_retry post m).2.1
        = expectedSleeps 0 (send_webhook_with_retry post m).2.2
    ∧ ((send_webhook_with_retry post m).1 = true →
        send_webhook (post ((send_webhook_with_retry post m).2.2 - 1)) = true
        ∧ ∀ j, j < (send_webhook_with_retry post m).2.2 - 1 →
            send_webhook (post j) = false)
    ∧ ((send_webhook_with_retry post m).1 = false →
        (send_webhook_with_retry post m).2.2 = m + 1
        ∧ ∀ i, i ≤ m → send_webhook (post i) = false) := by
  obtain ⟨h1, h2, h3, h4, h5, h6⟩ := webhookLoop_spec post m 0
  simp only [Nat.zero_add] at h1 h2 h5 h6
  exact ⟨h1, h2, h5, h6⟩

/-- Witness for c7_send_webhook_with_retry_spec: a delivery that succeeds on
the first attempt makes the wrapper return true. -/
theorem c7_witness :
    (send_webhook_with_retry (fun _ => PostOutcome.success) 3).1 = true :=
  (c7_send_webhook_with_retry_spec (fun _ => PostOutcome.success) 3).1.mpr
    ⟨0, by omega, rfl⟩

/-! ## Signing and allowlisting: src/security.py -/

/-- Function create_hmac_signature of src/security.py with the timestamp
argument supplied (when it is None the source substitutes the current unix
time).  The message signed is the string payload + "|" + timestamp; the
HMAC-SHA256 hex digest itself is computed by the external hashlib and hmac
libraries, embedded here as the keyed digest parameter mac applied to the
secret (settings.demucssvc_token) and the message. -/
def create_hmac_signature (mac : String → String → String)
    (secret payload timestamp : String) : String :=
  mac secret (payload ++ "|" ++ timestamp)

/-- Function verify_hmac_signature of src/security.py: reject unless the
signature starts with "sha256=", strip those 7 characters, recompute the
expected signature and compare with hmac.compare_digest (a constant-time
string equality). -/
def verify_hmac_signature (mac : String → String → String)
    (secret payload signature timestamp : String) : Bool :=
  if "sha256=".data.isPrefixOf signature.data then
    signature.data.drop 7
      == (create_hmac_signature mac secret payload timestamp).data
  else false

/-- Round trip of the signing module: verifying a freshly created signature
with the "sha256=" header prefix succeeds, for every keyed digest function,
secret, payload and timestamp. -/
lemma verify_roundtrip (mac : String → String → String)
    (secret payload timestamp : String) :
    verify_hmac_signature mac secret payload
      ("sha256=" ++ create_hmac_signature mac secret payload timestamp)
      timestamp = true := by
  unfold verify_hmac_signature
  rw [if_pos]
  · have h7 : ("sha256=".data).length = 7 := rfl
    rw [String.data_append, ← h7, List.drop_left]
    simp
  · rw [String.data_append]
    exact List.isPrefixOf_iff_prefix.mpr (List.prefix_append _ _)

/-- Any received digest other than the recomputed one is rejected, for every
keyed digest function: in particular altering any single character of the
hex digest while keeping the "sha256=" prefix makes verification fail. -/
lemma verify_rejects_other_digest (mac : String → String → String)
    (secret payload timestamp : String) (d : String)
    (hd : d.data ≠ (create_hmac_signature mac secret payload timestamp).data) :
    verify_hmac_signature mac secret payload ("sha256=" ++ d) timestamp
      = false := by
  unfold verify_hmac_signature
  rw [if_pos]
  · have h7 : ("sha256=".data).length = 7 := rfl
    rw [String.data_append, ← h7, List.drop_left]
    simpa using hd
  · rw [String.data_append]
    exact List.isPrefixOf_iff_prefix.mpr (List.prefix_append _ _)

/-- Scheme characters of urllib.parse: letters, digits and the three
characters +, - and period. -/
def schemeChar (c : Char) : Bool :=
  c.isAlphanum || c == '+' || c == '-' || c == '.'

/-- Splits a character list at the first colon, when there is one. -/
def takeUntilColon : List Char → Option (List Char × List Char)
  | [] => none
  | c :: rest =>
    if c = ':' then some ([], rest)
    else
      match takeUntilColon rest with
      | some (pre, post) => some (c :: pre, post)
      | none => none

/-- Scheme extraction of urllib.parse.urlsplit: when the text before the
first colon is non-empty, starts with a letter and consists of scheme
characters only, it is removed and lowercased as the scheme; otherwise
there is no scheme and the input is left whole. -/
def splitScheme (cs : List Char) : List Char × List Char :=
  match takeUntilColon cs with
  | some (pre, rest) =>
    match pre with
    | [] => ([], cs)
    | c0 :: _ =>
      if c0.isAlpha && pre.all schemeChar then (pre.map Char.toLower, rest)
      else ([], cs)
  | none => ([], cs)

/-- Components of a parsed URL that is_webhook_url_allowed consumes:
scheme, netloc (host authority) and path. -/
structure UrlParts where
  scheme : String
  netloc : String
  path : String
  deriving DecidableEq, Repr

/-- Model of urllib.parse.urlparse as used by src/security.py: extract the
scheme; when the remainder starts with two slashes, the netloc runs to the
next slash, question mark or hash; the path is the rest up to a question
mark or hash (query and fragment are not consumed by the caller).  An
unbalanced square bracket in the netloc raises ValueError (Invalid IPv6
URL) in urllib, embedded as Except.error. -/
def urlparse (url : String) : Except Unit UrlParts :=
  let sp := splitScheme url.data
  let np : List Char × List Char :=
    match sp.2 with
    | '/' :: '/' :: r =>
      (r.takeWhile (fun c => !(c == '/' || c == '?' || c == '#')),
       r.dropWhile (fun c => !(c == '/' || c == '?' || c == '#')))
    | _ => ([], sp.2)
  if (np.1.contains '[' != np.1.contains ']') then Except.error ()
  else
    Except.ok
      { scheme := String.mk sp.1, netloc := String.mk np.1,
        path := String.mk (np.2.takeWhile (fun c => !(c == '?' || c == '#'))) }

/-- Test parsed_url.path.startswith(allowed_parsed.path) of src/security.py:
a codepoint-level prefix test of the allowlist-entry path against the
candidate path, with no path-segment boundary. -/
def pathStartsWith (s pre : String) : Bool :=
  pre.data.isPrefixOf s.data

/-- Loop of is_webhook_url_allowed over the allowlist: each entry is parsed
in turn; a ValueError while parsing an entry propagates to the enclosing
try of is_webhook_url_allowed, which returns False; an entry matching on
scheme, netloc and path prefix returns True at once. -/
def checkAllow (p : UrlParts) : List String → Bool
  | [] => false
  | a :: rest =>
    match urlparse a with
    | Except.error _ => false
    | Except.ok ap =>
      if (p.scheme == ap.scheme && p.netloc == ap.netloc
          && pathStartsWith p.path ap.path) then true
      else checkAllow p rest

/-- Function is_webhook_url_allowed of src/security.py, with the allowlist
(settings.api_webhook_url_allowlist) passed explicitly: parse the candidate,
reject when the scheme or netloc is empty, then scan the allowlist; any
parse failure is caught by the surrounding try and yields False.  The
function is total: it never raises. -/
def is_webhook_url_allowed (allowlist : List String) (url : String) : Bool :=
  match urlparse url with
  | Except.error _ => false
  | Except.ok p =>
    if (p.scheme == "" || p.netloc == "") then false
    else checkAllow p allowlist

/-- Default value of Settings.api_webhook_url_allowlist in src/env.py. -/
def api_webhook_url_allowlist : List String :=
  ["https://api.track-tree.com/webhooks/demucs"]

lemma checkAllow_iff (p : UrlParts) (l : List String)
    (h : ∀ a ∈ l, (urlparse a).isOk = true) :
    checkAllow p l = true ↔
      ∃ a ∈ l, ∃ ap, urlparse a = Except.ok ap ∧
        p.scheme = ap.scheme ∧ p.netloc = ap.netloc ∧
        pathStartsWith p.path ap.path = true := by
  induction l with
  | nil => simp [checkAllow]
  | cons a rest ih =>
    have ha : (urlparse a).isOk = true := h a (by simp)
    have hrest : ∀ b ∈ rest, (urlparse b).isOk = true :=
      fun b hb => h b (by simp [hb])
    cases hap : urlparse a with
    | error e => rw [hap] at ha; simp [Except.isOk, Except.toBool] at ha
    | ok ap =>
      by_cases hc : (p.scheme == ap.scheme && p.netloc == ap.netloc
          && pathStartsWith p.path ap.path) = true
      · have hc' : p.scheme = ap.scheme ∧ p.netloc = ap.netloc
            ∧ pathStartsWith p.path ap.path = true := by
          have hc0 := hc
          simp only [Bool.and_eq_true, beq_iff_eq] at hc0
          exact ⟨hc0.1.1, hc0.1.2, hc0.2⟩
        constructor
        · intro _
          exact ⟨a, by simp, ap, hap, hc'.1, hc'.2.1, hc'.2.2⟩
        · intro _
          rw [checkAllow]
          simp only [hap]
          rw [if_pos hc]
      · have hc' : ¬(p.scheme = ap.scheme ∧ p.netloc = ap.netloc
            ∧ pathStartsWith p.path ap.path = true) := by
          have hc0 := hc
          simp only [Bool.and_eq_true, beq_iff_eq] at hc0
          exact fun hx => hc0 ⟨⟨hx.1, hx.2.1⟩, hx.2.2⟩
        rw [checkAllow]
        simp only [hap]
        rw [if_neg (by simpa using hc), ih hrest]
        constructor
        · rintro ⟨b, hb, hbr⟩
          exact ⟨b, by simp [hb], hbr⟩
        · rintro ⟨b, hb, ap', hap', h1, h2, h3⟩
          rcases List.mem_cons.mp hb with rfl | hb'
          · rw [hap] at hap'
            injection hap' with he
            subst he
            exact absurd ⟨h1, h2, h3⟩ hc'
          · exact ⟨b, hb', ap', hap', h1, h2, h3⟩

/-- C6: for every candidate URL, is_webhook_url_allowed returns true exactly
when the candidate parses with a non-empty scheme and netloc and some
allowlist entry parses with an identical scheme, identical netloc, and a
path that is a string prefix of the candidate path; a candidate with a
missing scheme or netloc, or a candidate parse failure, yields false.  The
embedded function is total, which reflects that the Python function catches
every exception and never raises.  The hypothesis says every configured
allowlist entry itself parses, as the default configuration does. -/
theorem c6_is_webhook_url_allowed_spec (allowlist : List String) (url : String)
    (h : ∀ a ∈ allowlist, (urlparse a).isOk = true) :
    is_webhook_url_allowed allowlist url = true ↔
      ∃ p, urlparse url = Except.ok p ∧ p.scheme ≠ "" ∧ p.netloc ≠ "" ∧
        ∃ a ∈ allowlist, ∃ ap, urlparse a = Except.ok ap ∧
          p.scheme = ap.scheme ∧ p.netloc = ap.netloc ∧
          pathStartsWith p.path ap.path = true := by
  cases hu : urlparse url with
  | error e =>
    rw [is_webhook_url_allowed]
    simp [hu]
  | ok p =>
    rw [is_webhook_url_allowed]
    simp only [hu, Except.ok.injEq]
    by_cases hs : (p.scheme == "" || p.netloc == "") = true
    · rw [if_pos hs]
      simp only [Bool.or_eq_true, beq_iff_eq] at hs
      constructor
      · intro hfalse
        cases hfalse
      · rintro ⟨p', hp', h1, h2, _⟩
        subst hp'
        rcases hs with hs | hs
        exacts [absurd hs h1, absurd hs h2]
    · rw [if_neg hs]
      simp only [Bool.or_eq_true, beq_iff_eq, not_or] at hs
      rw [checkAllow_iff p allowlist h]
      constructor
      · intro hrest
        exact ⟨p, rfl, hs.1, hs.2, hrest⟩
      · rintro ⟨p', hp', h1, h2, hrest⟩
        subst hp'
        exact hrest

/-- Witness for c6_is_webhook_url_allowed_spec, on the example triple of the
specification: the candidate with an extra path segment under the allowlist
entry is accepted. -/
theorem c6_witness :
    is_webhook_url_allowed ["https://api.example.com/webhooks"]
      "https://api.example.com/webhooks/x" = true :=
  (c6_is_webhook_url_allowed_spec ["https://api.example.com/webhooks"]
      "https://api.example.com/webhooks/x" (by decide)).mpr
    ⟨{ scheme := "https", netloc := "api.example.com", path := "/webhooks/x" },
      rfl, by decide, by decide,
      "https://api.example.com/webhooks", by simp,
      { scheme := "https", netloc := "api.example.com", path := "/webhooks" },
      rfl, rfl, rfl, rfl⟩

/-- C10: the allowlist path comparison is a plain string-prefix test with no
path-segment boundary.  Against the default allowlist of src/env.py, whose
single entry has path /webhooks/demucs, the candidate whose path continues
with -evil and no slash separator is accepted. -/
theorem c10_prefix_no_segment_boundary :
    is_webhook_url_allowed api_webhook_url_allowlist
        "https://api.track-tree.com/webhooks/demucs-evil" = true
    ∧ urlparse "https://api.track-tree.com/webhooks/demucs-evil"
        = Except.ok (UrlParts.mk "https" "api.track-tree.com" "/webhooks/demucs-evil") :=
  ⟨rfl, rfl⟩

/-! ## Data model (src/models.py) and job pipeline (src/demucs_runner.py) -/

/-- The status literal of models.WebhookPayload:
Literal of the two strings completed and failed. -/
inductive JobStatus where
  | completed
  | failed
  deriving DecidableEq, Repr

/-- Model StemInfo of src/models.py.  The duration field, a float in the
source, is embedded as a rational; it is carried as data only. -/
structure StemInfo where
  type : String
  name : String
  url : String
  size : Nat
  duration : Rat
  checksum : String
  deriving DecidableEq, Repr

/-- Model WebhookPayload of src/models.py, with its declared fields:
job_id (required), status (required), stems (default empty list),
error (default None), processing_time (default None). -/
structure WebhookPayload where
  job_id : String
  status : JobStatus
  stems : List StemInfo
  error : Option String
  processing_time : Option Int
  deriving DecidableEq, Repr

/-- Construction of a models.WebhookPayload instance from keyword arguments,
following pydantic BaseModel semantics under the default configuration:
keyword arguments that are not declared fields are ignored, a declared field
that is absent takes its default, and an absent field without a default
(job_id or status) raises ValidationError, embedded as Except.error.  Each
argument below is the value supplied for the correspondingly named declared
field, or none when the call site does not supply it. -/
def WebhookPayload.construct (job_id? : Option String) (status? : Option JobStatus)
    (stems? : Option (List StemInfo)) (error? : Option (Option String))
    (processing_time? : Option (Option Int)) : Except Unit WebhookPayload :=
  match job_id?, status? with
  | some j, some st =>
    Except.ok
      { job_id := j, status := st, stems := stems?.getD [],
        error := error?.getD none, processing_time := processing_time?.getD none }
  | _, _ => Except.error ()

/-- An exception live inside one run of process_audio_split: either an
exception raised by a pipeline step (download, model load, separation,
upload or webhook delivery), carrying its message, or the pydantic
ValidationError raised when constructing a WebhookPayload. -/
inductive PipeExc where
  | external (msg : String)
  | validation
  deriving DecidableEq, Repr

/-- The str(e) used for error_msg in the failure handler of
process_audio_split. -/
def PipeExc.str : PipeExc → String
  | PipeExc.external m => m
  | PipeExc.validation => "1 validation error for WebhookPayload: job_id Field required"

/-- The dictionary returned by process_audio_split on success. -/
structure RunSummary where
  status : String
  version_id : String
  processing_time_ms : Int
  stems_count : Nat
  deriving DecidableEq, Repr

/-- Collaborator behaviour for one run of process_audio_split: the outcomes
of the download, model load, separation and stem-upload steps, the outcome
of each attempted webhook POST (an Except.error means send_webhook of
src/demucs_runner.py raised), and the measured elapsed milliseconds. -/
structure PipelineEnv where
  download : String → Except String String
  load_model : String → Except String Unit
  separate : String → Except String (List String)
  upload_stems : List String → String → Except String (List StemInfo)
  deliver : String → WebhookPayload → Except String Unit
  elapsedMs : Int

/-- Observable outcome of one run of process_audio_split: the returned
dictionary or the exception that propagated to the task runtime, whether
the temporary workspace directory still exists after the final cleanup
(the finally block, with shutil.rmtree modelled as succeeding), the
payloads handed to send_webhook, and those whose POST succeeded. -/
structure RunTrace where
  result : Except PipeExc RunSummary
  tempDirExists : Bool
  attempted : List WebhookPayload
  delivered : List WebhookPayload
  deriving Repr

/-- The except-branch of process_audio_split in src/demucs_runner.py: with
error_msg = str(e), it constructs
WebhookPayload(version_id=..., status="failed", processing_time_ms=...,
stems=[], error=error_msg) — supplying version_id and processing_time_ms,
which are not declared fields, and omitting the required job_id — and sends
it; both construction and delivery sit in an inner try whose except only
logs.  update_state is effect-free here, the original exception is then
re-raised, and the finally block removes the workspace directory. -/
def failureHandler (env : PipelineEnv) (webhook : String) (e : PipeExc)
    (attempted0 delivered0 : List WebhookPayload) : RunTrace :=
  match WebhookPayload.construct none (some JobStatus.failed) (some [])
      (some (some e.str)) none with
  | Except.error _ =>
    { result := Except.error e, tempDirExists := false,
      attempted := attempted0, delivered := delivered0 }
  | Except.ok p =>
    match env.deliver webhook p with
    | Except.ok _ =>
      { result := Except.error e, tempDirExists := false,
        attempted := attempted0 ++ [p], delivered := delivered0 ++ [p] }
    | Except.error _ =>
      { result := Except.error e, tempDirExists := false,
        attempted := attempted0 ++ [p], delivered := delivered0 }

/-- Task process_audio_split of src/demucs_runner.py.  After the workspace
directory is created (tempfile.mkdtemp, giving tempDirExists = true during
the run), the steps run in order; on success the code constructs
WebhookPayload(version_id=..., status="completed", processing_time_ms=...,
stems=stem_infos, error=None) — again supplying version_id and
processing_time_ms instead of the declared job_id and processing_time —
sends it, and returns the summary dictionary; any exception goes through
failureHandler; the finally block removes the workspace directory on every
exit path. -/
def process_audio_split (env : PipelineEnv)
    (version_id audio_url ai_model webhook : String) : RunTrace :=
  match env.download audio_url with
  | Except.error m => failureHandler env webhook (PipeExc.external m) [] []
  | Except.ok audio_path =>
    match env.load_model ai_model with
    | Except.error m => failureHandler env webhook (PipeExc.external m) [] []
    | Except.ok _ =>
      match env.separate audio_path with
      | Except.error m => failureHandler env webhook (PipeExc.external m) [] []
      | Except.ok stem_files =>
        match env.upload_stems stem_files version_id with
        | Except.error m => failureHandler env webhook (PipeExc.external m) [] []
        | Except.ok stem_infos =>
          match WebhookPayload.construct none (some JobStatus.completed)
              (some stem_infos) (some none) none with
          | Except.error _ => failureHandler env webhook PipeExc.validation [] []
          | Except.ok payload =>
            match env.deliver webhook payload with
            | Except.error m =>
              failureHandler env webhook (PipeExc.external m) [payload] []
            | Except.ok _ =>
              { result := Except.ok
                  { status := "completed", version_id := version_id,
                    processing_time_ms := env.elapsedMs,
                    stems_count := stem_infos.length },
                tempDirExists := false,
                attempted := [payload], delivered := [payload] }

lemma failureHandler_tempDir (env : PipelineEnv) (webhook : String)
    (e : PipeExc) (a0 d0 : List WebhookPayload) :
    (failureHandler env webhook e a0 d0).tempDirExists = false := by
  unfold failureHandler
  split
  · rfl
  · split <;> rfl

/-- C2: on every exit path of process_audio_split — success, failure of any
step, and failure of the notification itself — the temporary workspace
directory created at entry no longer exists when the run finishes: the
finally block always removes it. -/
theorem c2_workspace_always_removed (env : PipelineEnv)
    (version_id audio_url ai_model webhook : String) :
    (process_audio_split env version_id audio_url ai_model webhook).tempDirExists
      = false := by
  unfold process_audio_split
  repeat' split
  all_goals first
    | exact failureHandler_tempDir ..
    | rfl

/-- An environment whose download step raises a connection error and whose
webhook endpoint would accept any POST. -/
def envDownloadFails : PipelineEnv :=
  { download := fun _ => Except.error "connection refused",
    load_model := fun _ => Except.ok (),
    separate := fun _ => Except.ok [],
    upload_stems := fun _ _ => Except.ok [],
    deliver := fun _ _ => Except.ok (),
    elapsedMs := 5 }

/-- C4, code bug: when a pipeline step raises (here the download step, with
a webhook endpoint that would accept any POST), the failure handler of
process_audio_split tries to build the failed WebhookPayload with keyword
arguments version_id and processing_time_ms, but models.WebhookPayload
declares job_id and processing_time and requires job_id, so the
construction raises ValidationError; the inner except swallows it, and no
failed payload is ever handed to send_webhook (attempted = []).  The
original step exception is still re-raised unchanged, and the notification
failure is not re-raised, as the claim says — but the claimed failed
webhook with status failed, empty stems and the error string is never
sent. -/
theorem c4_failure_webhook_never_built :
    process_audio_split envDownloadFails "v1" "https://audio.example/in.wav"
        "htdemucs" "https://cb.example/hook"
      = { result := Except.error (PipeExc.external "connection refused"),
          tempDirExists := false, attempted := [], delivered := [] } :=
  rfl

/-- Two stems as the upload step would report them. -/
def stemDrums : StemInfo :=
  { type := "drums", name := "Drums", url := "https://bucket.example/v1/drums.wav",
    size := 2097152, duration := 180, checksum := "sha256:aa" }

/-- Second stem record for the all-success scenario. -/
def stemVocals : StemInfo :=
  { type := "vocals", name := "Vocals", url := "https://bucket.example/v1/vocals.wav",
    size := 2097152, duration := 180, checksum := "sha256:bb" }

/-- An environment in which every pipeline step succeeds, producing two
stems, and the webhook endpoint would accept any POST. -/
def envAllStepsSucceed : PipelineEnv :=
  { download := fun _ => Except.ok "input.wav",
    load_model := fun _ => Except.ok (),
    separate := fun _ => Except.ok ["drums.wav", "vocals.wav"],
    upload_stems := fun _ _ => Except.ok [stemDrums, stemVocals],
    deliver := fun _ _ => Except.ok (),
    elapsedMs := 1234 }

/-- C8, code bug: on a job whose steps all succeed with two stems, the
success path of process_audio_split constructs
WebhookPayload(version_id=..., status="completed", processing_time_ms=...,
stems=..., error=None); models.WebhookPayload requires job_id (and names
the time field processing_time, not processing_time_ms), so the
construction raises ValidationError, the failure handler runs (and its own
payload construction fails the same way), no webhook is ever sent
(attempted = []), and the task raises instead of returning the completed
summary.  The claim says one webhook with status completed, two stem
records and a null error is sent. -/
theorem c8_success_webhook_never_built :
    process_audio_split envAllStepsSucceed "v1" "https://audio.example/in.wav"
        "htdemucs" "https://cb.example/hook"
      = { result := Except.error PipeExc.validation,
          tempDirExists := false, attempted := [], delivered := [] } :=
  rfl

end TrackTree
